import Mathlib

/-!
# Verification of the btm-pg dashboard (src/main.rs)

A shallow embedding of the single-file Rust program: a terminal dashboard
that repeatedly queries `pg_stat_all_tables`, renders the result as a table,
and exits when the user presses the quit key.

The embedding follows `src/main.rs`:
* `SourceRecord`, `toRow`, `rowsToTable`, `runQuery`,
  `fetch_pg_stat_all_tables` model the fetch function (lines 105-127);
* `runMain` / `runLoop` model `main` (lines 16-102) as a function of the
  outcomes the external world supplies (environment variable, connection,
  terminal backend, pending key events), tracking the terminal raw-mode
  state, the number of query/draw calls, and a trace of observable actions.

Fallible Rust calls (the `?` operator) are modelled with explicit outcome
values; panics (`expect`, `Row::get` on an unexpected NULL) are modelled as
a distinct abnormal-exit result, since they bypass `?`-style propagation.
-/

/-- One record of the `pg_stat_all_tables` view as the query at
`src/main.rs:108` selects it: two text columns and seven bigint columns,
each nullable at the wire level.  The Rust code reads the text columns with
`row.get::<_, &str>` and the numeric columns with
`row.get::<_, Option<i64>>`. -/
structure SourceRecord where
  schemaname : Option String
  relname : Option String
  idx_tup_fetch : Option Int
  n_tup_ins : Option Int
  n_tup_upd : Option Int
  n_tup_del : Option Int
  n_tup_hot_upd : Option Int
  n_live_tup : Option Int
  n_dead_tup : Option Int
deriving DecidableEq, Repr

/-- Model of `row.get::<_, &str>(col)` from tokio-postgres: panics when the value is
NULL (the `FromSql` impl for `&str` rejects NULL), so the conversion of a
record with a NULL text column aborts instead of producing a value.  The
panic is modelled as an `Except.error` carrying the panic message. -/
def getStr (col : String) (v : Option String) : Except String String :=
  match v with
  | some s => Except.ok s
  | none => Except.error ("error retrieving column " ++ col ++ ": unexpected NULL")

/-- The closure body at `src/main.rs:117-126`: build the nine display
strings of one table row.  Text columns pass through `&str` (panic on
NULL); numeric columns use `Option<i64>` then `.unwrap_or(0).to_string()`,
modelled by `Option.getD 0` and `toString`. -/
def toRow (r : SourceRecord) : Except String (List String) :=
  match getStr "schemaname" r.schemaname with
  | Except.error e => Except.error e
  | Except.ok schema =>
    match getStr "relname" r.relname with
    | Except.error e => Except.error e
    | Except.ok rel =>
      Except.ok [schema, rel,
        toString (r.idx_tup_fetch.getD 0),
        toString (r.n_tup_ins.getD 0),
        toString (r.n_tup_upd.getD 0),
        toString (r.n_tup_del.getD 0),
        toString (r.n_tup_hot_upd.getD 0),
        toString (r.n_live_tup.getD 0),
        toString (r.n_dead_tup.getD 0)]

/-- Model of `rows.iter().map(|row| ...).collect()` at `src/main.rs:114-127`:
convert every fetched record in order; the first panicking conversion
aborts the whole traversal. -/
def rowsToTable : List SourceRecord → Except String (List (List String))
  | [] => Except.ok []
  | r :: rs =>
    match toRow r with
    | Except.error e => Except.error e
    | Except.ok row =>
      match rowsToTable rs with
      | Except.error e => Except.error e
      | Except.ok rows => Except.ok (row :: rows)

/-- The SQL text sent by `client.query` at `src/main.rs:107-109`, verbatim. -/
def sqlText : String :=
  "SELECT schemaname, relname, idx_tup_fetch, n_tup_ins, n_tup_upd, n_tup_del, n_tup_hot_upd, n_live_tup, n_dead_tup FROM pg_stat_all_tables ORDER BY n_tup_ins desc LIMIT 15"

/-- Sort key of the query's `ORDER BY n_tup_ins desc`: PostgreSQL orders
`DESC` with NULLs first, so a NULL `n_tup_ins` sorts as the largest key,
modelled by `⊤` in `WithTop Int`. -/
def insKey (r : SourceRecord) : WithTop Int :=
  match r.n_tup_ins with
  | none => ⊤
  | some v => (v : WithTop Int)

/-- The descending order imposed by `ORDER BY n_tup_ins desc`. -/
def insDescOrder (a b : SourceRecord) : Prop := insKey b ≤ insKey a

instance : DecidableRel insDescOrder := fun a b =>
  inferInstanceAs (Decidable (insKey b ≤ insKey a))

instance : IsTotal SourceRecord insDescOrder :=
  ⟨fun a b => (le_total (insKey b) (insKey a)).elim Or.inl Or.inr⟩

instance : IsTrans SourceRecord insDescOrder :=
  ⟨fun _ _ _ hab hbc => le_trans hbc hab⟩

/-- Standard SQL semantics of the query text in `sqlText`, applied to the
current contents of `pg_stat_all_tables` (the query itself executes in the
external database): order all records by `n_tup_ins` descending and keep
at most the first 15. -/
def runQuery (db : List SourceRecord) : List SourceRecord :=
  (List.insertionSort insDescOrder db).take 15

/-- Function `fetch_pg_stat_all_tables` at `src/main.rs:105-128`: execute the one
query, then convert each returned record to a display row. -/
def fetch_pg_stat_all_tables (db : List SourceRecord) :
    Except String (List (List String)) :=
  rowsToTable (runQuery db)

/-- The list of SQL statements one call of `fetch_pg_stat_all_tables`
issues: exactly the single `client.query` call at `src/main.rs:107`,
with no retry and no cache lookup. -/
def fetchIssuedQueries (_db : List SourceRecord) : List String := [sqlText]

/-- A keyboard key code, as crossterm reports it (`event::KeyCode`).  Only
the character constructor matters to the program; every other code is
collapsed into `otherKey`. -/
inductive KeyCode
  | char (c : Char)
  | otherKey (n : Nat)
deriving DecidableEq, Repr

/-- A keyboard modifier held with a key event (`event::KeyModifiers`). -/
inductive KeyModifier
  | shift
  | control
  | alt
deriving DecidableEq, Repr

/-- A key event: code plus accompanying modifiers (`event::KeyEvent`). -/
structure KeyEvent where
  code : KeyCode
  modifiers : List KeyModifier
deriving DecidableEq, Repr

/-- A terminal event as returned by `event::read()`: a key event or some
non-key event (resize, mouse, ...). -/
inductive TermEvent
  | key (ev : KeyEvent)
  | nonKey (n : Nat)
deriving DecidableEq, Repr

/-- The quit test at `src/main.rs:94`:
`key.code == event::KeyCode::Char('q')` — only the key code is compared;
modifiers are not consulted. -/
def isQuitKey (k : KeyEvent) : Bool :=
  k.code == KeyCode.char 'q'

/-- Refresh interval of `time::interval(Duration::from_secs(2))` at
`src/main.rs:37`, in seconds. -/
def refreshIntervalSecs : Nat := 2

/-- Input-poll window of `event::poll(Duration::from_millis(200))` at
`src/main.rs:92`, in milliseconds. -/
def pollWindowMillis : Nat := 200

instance {e a : Type} [DecidableEq e] [DecidableEq a] : DecidableEq (Except e a) := fun x y =>
  match x, y with
  | Except.error u, Except.error v =>
    if h : u = v then isTrue (by rw [h]) else isFalse (by simp [h])
  | Except.error _, Except.ok _ => isFalse (by simp)
  | Except.ok _, Except.error _ => isFalse (by simp)
  | Except.ok u, Except.ok v =>
    if h : u = v then isTrue (by rw [h]) else isFalse (by simp [h])

/-- What the external world supplies to one iteration of the main loop:
the outcome of `client.query`, of `terminal.draw`, of `event::poll`
(error, or whether an event is pending), and of `event::read`. -/
structure TickInput where
  queryResult : Except Unit (List SourceRecord)
  drawOk : Bool
  pollResult : Except Unit Bool
  readResult : Except Unit TermEvent
deriving DecidableEq, Repr

/-- The fatal error kinds `main` can return through `?`
(`Result::Err` from `main`, printed and mapped to a non-zero exit code). -/
inductive RunError
  | connectionFailed
  | enableRawFailed
  | terminalInitFailed
  | queryFailed
  | drawFailed
  | pollFailed
  | readFailed
  | disableRawFailed
deriving DecidableEq, Repr

/-- How the process run ends: `okExit` is `Ok(())` (exit code 0),
`errExit` is an `Err` return (exit code 1), `panicked` is an aborted
panic such as `expect` on a missing variable (exit code 101), `running`
means the supplied list of tick inputs ran out with the loop still
going. -/
inductive ExitKind
  | okExit
  | errExit (e : RunError)
  | panicked (msg : String)
  | running
deriving DecidableEq, Repr

/-- Rust process exit code for each exit kind (`none` while running). -/
def exitCode : ExitKind → Option Nat
  | ExitKind.okExit => some 0
  | ExitKind.errExit _ => some 1
  | ExitKind.panicked _ => some 101
  | ExitKind.running => none

/-- Observable actions of the program, in program order: the one SQL query
of a fetch, a frame draw, the `interval.tick().await` wait, the bounded
`event::poll` input check, and the raw-mode switches. -/
inductive TraceStep
  | enableRaw
  | fetchQuery
  | renderFrame
  | waitInterval (secs : Nat)
  | pollInput (millis : Nat)
  | disableRaw
deriving DecidableEq, Repr

/-- Result of a whole run of `main`: how it exited, whether the terminal
is still in raw mode at that point, how many `client.query` and
`terminal.draw` calls happened, whether a quit keypress was observed, and
the ordered action trace. -/
structure RunResult where
  exit : ExitKind
  rawModeOn : Bool
  fetches : Nat
  renders : Nat
  quitRequested : Bool
  trace : List TraceStep
deriving DecidableEq, Repr

/-- Mutable counters and trace carried through the loop. -/
structure LoopAcc where
  fetches : Nat
  renders : Nat
  trace : List TraceStep
deriving DecidableEq, Repr

/-- The code after `break` at `src/main.rs:101`: `disable_raw_mode()?`
then `Ok(())`.  A failing `disable_raw_mode` leaves raw mode on and turns
the quit into an `Err` exit. -/
def finishQuit (disableRawOk : Bool) (acc : LoopAcc) : RunResult :=
  if disableRawOk then
    ⟨ExitKind.okExit, false, acc.fetches, acc.renders, true,
      acc.trace ++ [TraceStep.disableRaw]⟩
  else
    ⟨ExitKind.errExit RunError.disableRawFailed, true, acc.fetches,
      acc.renders, true, acc.trace ++ [TraceStep.disableRaw]⟩

/-- The `loop { ... }` at `src/main.rs:38-99`, transcribed step by step:
fetch (query then row conversion), draw, `interval.tick().await`,
`event::poll`, and on a pending event `event::read` with the quit test.
Each `?` failure returns the error immediately — without disabling raw
mode.  A row-conversion panic likewise aborts with raw mode still on. -/
def runLoop (disableRawOk : Bool) (acc : LoopAcc) :
    List TickInput → RunResult
  | [] => ⟨ExitKind.running, true, acc.fetches, acc.renders, false, acc.trace⟩
  | t :: rest =>
    let acc1 : LoopAcc :=
      ⟨acc.fetches + 1, acc.renders, acc.trace ++ [TraceStep.fetchQuery]⟩
    match t.queryResult with
    | Except.error _ =>
      ⟨ExitKind.errExit RunError.queryFailed, true, acc1.fetches,
        acc1.renders, false, acc1.trace⟩
    | Except.ok records =>
      match rowsToTable records with
      | Except.error msg =>
        ⟨ExitKind.panicked msg, true, acc1.fetches, acc1.renders, false,
          acc1.trace⟩
      | Except.ok _rows =>
        let acc2 : LoopAcc :=
          ⟨acc1.fetches, acc1.renders + 1, acc1.trace ++ [TraceStep.renderFrame]⟩
        if t.drawOk then
          let acc3 : LoopAcc :=
            ⟨acc2.fetches, acc2.renders,
              acc2.trace ++ [TraceStep.waitInterval refreshIntervalSecs]⟩
          let acc4 : LoopAcc :=
            ⟨acc3.fetches, acc3.renders,
              acc3.trace ++ [TraceStep.pollInput pollWindowMillis]⟩
          match t.pollResult with
          | Except.error _ =>
            ⟨ExitKind.errExit RunError.pollFailed, true, acc4.fetches,
              acc4.renders, false, acc4.trace⟩
          | Except.ok false => runLoop disableRawOk acc4 rest
          | Except.ok true =>
            match t.readResult with
            | Except.error _ =>
              ⟨ExitKind.errExit RunError.readFailed, true, acc4.fetches,
                acc4.renders, false, acc4.trace⟩
            | Except.ok (TermEvent.nonKey _) => runLoop disableRawOk acc4 rest
            | Except.ok (TermEvent.key k) =>
              if isQuitKey k then finishQuit disableRawOk acc4
              else runLoop disableRawOk acc4 rest
        else
          ⟨ExitKind.errExit RunError.drawFailed, true, acc2.fetches,
            acc2.renders, false, acc2.trace⟩

/-- Startup outcomes the external world supplies to `main`:
the `DATABASE_URL` variable, and success of connecting, of
`enable_raw_mode`, of `Terminal::new`, and of the final
`disable_raw_mode`. -/
structure MainInput where
  databaseUrl : Option String
  connectOk : Bool
  enableRawOk : Bool
  terminalNewOk : Bool
  disableRawOk : Bool
deriving DecidableEq, Repr

/-- Function `main` at `src/main.rs:16-102`: read `DATABASE_URL` (`expect` panics
when absent, before any terminal change), connect, `enable_raw_mode`,
`Terminal::new`, then the loop.  Error exits taken after a successful
`enable_raw_mode` leave `rawModeOn = true`. -/
def runMain (mi : MainInput) (ticks : List TickInput) : RunResult :=
  match mi.databaseUrl with
  | none =>
    ⟨ExitKind.panicked "DATABASE_URL must be set in environment variables",
      false, 0, 0, false, []⟩
  | some _ =>
    if mi.connectOk then
      if mi.enableRawOk then
        if mi.terminalNewOk then
          runLoop mi.disableRawOk ⟨0, 0, [TraceStep.enableRaw]⟩ ticks
        else
          ⟨ExitKind.errExit RunError.terminalInitFailed, true, 0, 0, false,
            [TraceStep.enableRaw]⟩
      else
        ⟨ExitKind.errExit RunError.enableRawFailed, false, 0, 0, false,
          [TraceStep.enableRaw]⟩
    else
      ⟨ExitKind.errExit RunError.connectionFailed, false, 0, 0, false, []⟩

/-- Sample record with both text columns present and all seven numeric
columns NULL except `n_tup_ins`. -/
def sampleRecordNulls : SourceRecord :=
  ⟨some "public", some "t1", none, some 5, none, none, none, none, none⟩

/-- Record whose `schemaname` is NULL. -/
def nullSchemaRecord : SourceRecord :=
  ⟨none, some "pg_class", some 1, some 2, some 3, some 4, some 5, some 6, some 7⟩

/-- Record whose `relname` is NULL. -/
def nullRelnameRecord : SourceRecord :=
  ⟨some "public", none, none, none, none, none, none, none, none⟩

/-- C2: in every row the conversion produces, a NULL numeric source field
is rendered as the string "0" (in its fixed position among the nine
columns), never as an empty string or as "null". -/
theorem null_numeric_fields_render_zero (r : SourceRecord) (row : List String)
    (h : toRow r = Except.ok row) :
    (r.idx_tup_fetch = none → row[2]? = some "0") ∧
    (r.n_tup_ins = none → row[3]? = some "0") ∧
    (r.n_tup_upd = none → row[4]? = some "0") ∧
    (r.n_tup_del = none → row[5]? = some "0") ∧
    (r.n_tup_hot_upd = none → row[6]? = some "0") ∧
    (r.n_live_tup = none → row[7]? = some "0") ∧
    (r.n_dead_tup = none → row[8]? = some "0") := by
  cases hs : r.schemaname with
  | none => simp [toRow, getStr, hs] at h
  | some s =>
    cases hr : r.relname with
    | none => simp [toRow, getStr, hs, hr] at h
    | some rel =>
      simp only [toRow, getStr, hs, hr, Except.ok.injEq] at h
      subst h
      refine ⟨?_, ?_, ?_, ?_, ?_, ?_, ?_⟩ <;> intro hn <;> simp [hn] <;> rfl

/-- C2 witness: the sample record with NULL numeric columns evaluates to a
row whose numeric cells are "0". -/
theorem null_numeric_fields_render_zero_witness :
    ((["public", "t1", "0", "5", "0", "0", "0", "0", "0"] : List String)[2]? =
      some "0") :=
  (null_numeric_fields_render_zero sampleRecordNulls
    ["public", "t1", "0", "5", "0", "0", "0", "0", "0"] (by decide)).1 rfl

/-- Helper: a successful single-row conversion always yields nine cells. -/
theorem toRow_length (r : SourceRecord) (row : List String)
    (h : toRow r = Except.ok row) : row.length = 9 := by
  cases hs : r.schemaname with
  | none => simp [toRow, getStr, hs] at h
  | some s =>
    cases hr : r.relname with
    | none => simp [toRow, getStr, hs, hr] at h
    | some rel =>
      simp only [toRow, getStr, hs, hr, Except.ok.injEq] at h
      subst h
      rfl

/-- Helper: every row of a successful whole-recordset conversion has nine
cells. -/
theorem rowsToTable_length (recs : List SourceRecord) :
    ∀ (table : List (List String)), rowsToTable recs = Except.ok table →
      ∀ row ∈ table, row.length = 9 := by
  induction recs with
  | nil =>
    intro table h row hrow
    simp only [rowsToTable, Except.ok.injEq] at h
    subst h
    simp at hrow
  | cons r rs ih =>
    intro table h row hrow
    cases h0 : toRow r with
    | error e => simp [rowsToTable, h0] at h
    | ok first =>
      cases h1 : rowsToTable rs with
      | error e => simp [rowsToTable, h0, h1] at h
      | ok rows =>
        simp only [rowsToTable, h0, h1, Except.ok.injEq] at h
        subst h
        rcases List.mem_cons.mp hrow with hfirst | hrest
        · exact hfirst ▸ toRow_length r first h0
        · exact ih rows h1 row hrest

/-- C3: every row produced by a successful `fetch_pg_stat_all_tables` call
has exactly the nine columns declared by the table view, however many
numeric source fields were NULL. -/
theorem fetched_rows_have_nine_columns (db : List SourceRecord)
    (table : List (List String)) (row : List String)
    (h : fetch_pg_stat_all_tables db = Except.ok table) (hrow : row ∈ table) :
    row.length = 9 :=
  rowsToTable_length (runQuery db) table h row hrow

/-- C3 witness: fetching from a one-record database with several NULL
numeric fields yields a row of nine cells. -/
theorem fetched_rows_have_nine_columns_witness :
    (["public", "t1", "0", "5", "0", "0", "0", "0", "0"] : List String).length =
      9 :=
  fetched_rows_have_nine_columns [sampleRecordNulls]
    [["public", "t1", "0", "5", "0", "0", "0", "0", "0"]]
    ["public", "t1", "0", "5", "0", "0", "0", "0", "0"] (by decide) (by decide)

/-- C8 counterexample: on a record whose `schemaname` is NULL the
conversion fails (models the `row.get::<_, &str>` panic) instead of
producing a row with an empty string, contradicting the claim that
processing does not fail there. -/
theorem null_string_field_does_not_degrade :
    (toRow nullSchemaRecord).isOk = false ∧
    toRow nullSchemaRecord =
      Except.error "error retrieving column schemaname: unexpected NULL" := by
  decide

/-- C8 amended: if a string field (`schemaname` or `relname`) is NULL, the
record conversion aborts with a panic (no row is produced at all), rather
than degrading to an empty string. -/
theorem null_string_field_aborts_conversion (r : SourceRecord)
    (h : r.schemaname = none ∨ r.relname = none) :
    (toRow r).isOk = false := by
  rcases h with h | h
  · simp [toRow, getStr, h, Except.isOk, Except.toBool]
  · cases hs : r.schemaname <;>
      simp [toRow, getStr, h, hs, Except.isOk, Except.toBool]

/-- C8 witness: the conversion of a record with NULL `relname` fails. -/
theorem null_string_field_aborts_conversion_witness :
    (toRow nullRelnameRecord).isOk = false :=
  null_string_field_aborts_conversion nullRelnameRecord (Or.inr rfl)

set_option maxRecDepth 10000 in
/-- C6: each fetch issues exactly one query — the fixed SQL text, which is
a SELECT (read-only) ending in `ORDER BY n_tup_ins desc LIMIT 15` — and
the query's result holds at most 15 records, sorted descending by
`n_tup_ins`: the result is a take-15 of a sorted permutation of the
current view contents; the fetch result is recomputed from the current
database contents on every call (no cache). -/
theorem fetch_single_capped_ordered_query (db : List SourceRecord) :
    (fetchIssuedQueries db).length = 1 ∧
    fetchIssuedQueries db = [sqlText] ∧
    sqlText.data.take 6 = "SELECT".data ∧
    sqlText.data.drop (sqlText.data.length - 32) =
      "ORDER BY n_tup_ins desc LIMIT 15".data ∧
    (runQuery db).length ≤ 15 ∧
    List.Sorted insDescOrder (runQuery db) ∧
    (∃ sorted, List.Perm db sorted ∧ List.Sorted insDescOrder sorted ∧
      runQuery db = sorted.take 15) ∧
    fetch_pg_stat_all_tables db = rowsToTable (runQuery db) := by
  refine ⟨rfl, rfl, by decide, by decide, List.length_take_le _ _, ?_, ?_, rfl⟩
  · exact List.Pairwise.sublist (List.take_sublist _ _)
      (List.sorted_insertionSort insDescOrder db)
  · exact ⟨List.insertionSort insDescOrder db,
      (List.perm_insertionSort insDescOrder db).symm,
      List.sorted_insertionSort insDescOrder db, rfl⟩

/-- Startup input where everything external succeeds. -/
def goodStartup : MainInput := ⟨some "postgres://localhost/db", true, true, true, true⟩

/-- Tick input whose `client.query` call fails. -/
def fetchFailTick : TickInput :=
  ⟨Except.error (), true, Except.ok false, Except.ok (TermEvent.nonKey 0)⟩

/-- Tick input with a successful fetch and draw and no pending input. -/
def noEventTick : TickInput :=
  ⟨Except.ok [sampleRecordNulls], true, Except.ok false, Except.ok (TermEvent.nonKey 0)⟩

/-- Tick input during whose poll window the quit key is pressed (with the
control modifier held, to exercise the modifier-blind comparison). -/
def quitTickInput : TickInput :=
  ⟨Except.ok [sampleRecordNulls], true, Except.ok true,
    Except.ok (TermEvent.key ⟨KeyCode.char 'q', [KeyModifier.control]⟩)⟩

/-- C1: evaluation of the run at the failing input — startup succeeds, the
first fetch fails fatally — shows the process exiting with the query
error while raw mode is still enabled and `disable_raw_mode` was never
called: the claimed every-exit-path terminal restoration does not happen
on the error path. -/
theorem raw_mode_not_restored_on_fetch_error :
    (runMain goodStartup [fetchFailTick]).exit =
      ExitKind.errExit RunError.queryFailed ∧
    (runMain goodStartup [fetchFailTick]).rawModeOn = true ∧
    (runMain goodStartup [fetchFailTick]).trace.count TraceStep.disableRaw = 0 := by
  decide

/-- Tick input that would fail if it were ever processed; used to show the
loop never reaches ticks after a quit. -/
def afterQuitTick : TickInput :=
  ⟨Except.error (), false, Except.error (), Except.error ()⟩

/-- C4: when a quit keypress arrives in the poll window of tick 1, the run
performs exactly one fetch and one render and exits with code zero; the
remaining tick inputs are never consumed (the run result equals the run on
the first tick alone), and in general once the quit key is observed the
loop finishes without processing any further tick. -/
theorem quit_on_first_tick_single_cycle (mi : MainInput) (t : TickInput)
    (rest : List TickInput) (recs : List SourceRecord)
    (table : List (List String)) (k : KeyEvent)
    (hurl : mi.databaseUrl.isSome = true)
    (hconn : mi.connectOk = true) (henable : mi.enableRawOk = true)
    (hterm : mi.terminalNewOk = true) (hdisable : mi.disableRawOk = true)
    (hq : t.queryResult = Except.ok recs)
    (hdec : rowsToTable recs = Except.ok table)
    (hdraw : t.drawOk = true) (hpoll : t.pollResult = Except.ok true)
    (hread : t.readResult = Except.ok (TermEvent.key k))
    (hk : k.code = KeyCode.char 'q') :
    runMain mi (t :: rest) = runMain mi [t] ∧
    (runMain mi (t :: rest)).fetches = 1 ∧
    (runMain mi (t :: rest)).renders = 1 ∧
    (runMain mi (t :: rest)).quitRequested = true ∧
    (runMain mi (t :: rest)).exit = ExitKind.okExit ∧
    exitCode (runMain mi (t :: rest)).exit = some 0 ∧
    (∀ (d : Bool) (acc : LoopAcc) (rest2 : List TickInput),
      runLoop d acc (t :: rest2) = runLoop d acc [t]) := by
  obtain ⟨url, hurl⟩ := Option.isSome_iff_exists.mp hurl
  refine ⟨?_, ?_, ?_, ?_, ?_, ?_, ?_⟩
  all_goals
    simp [runMain, runLoop, finishQuit, exitCode, hurl, hconn, henable, hterm,
      hdisable, hq, hdec, hdraw, hpoll, hread, isQuitKey, hk]

/-- C4 witness: the quit tick followed by a poisoned tick — the run equals
the single-tick run, does one fetch and one render, and exits zero. -/
theorem quit_on_first_tick_single_cycle_witness :
    runMain goodStartup [quitTickInput, afterQuitTick] =
      runMain goodStartup [quitTickInput] ∧
    (runMain goodStartup [quitTickInput, afterQuitTick]).fetches = 1 ∧
    (runMain goodStartup [quitTickInput, afterQuitTick]).renders = 1 ∧
    exitCode (runMain goodStartup [quitTickInput, afterQuitTick]).exit =
      some 0 := by
  have h := quit_on_first_tick_single_cycle goodStartup quitTickInput
    [afterQuitTick] [sampleRecordNulls]
    [["public", "t1", "0", "5", "0", "0", "0", "0", "0"]]
    ⟨KeyCode.char 'q', [KeyModifier.control]⟩
    rfl rfl rfl rfl rfl rfl (by decide) rfl rfl rfl rfl
  exact ⟨h.1, h.2.1, h.2.2.1, h.2.2.2.2.2.1⟩

/-- Helper: the loop exits with `Ok(())` exactly when a quit keypress was
observed and the final `disable_raw_mode` succeeded. -/
theorem runLoop_okExit_iff (d : Bool) (ticks : List TickInput) :
    ∀ acc : LoopAcc,
      ((runLoop d acc ticks).exit = ExitKind.okExit ↔
        ((runLoop d acc ticks).quitRequested = true ∧ d = true)) := by
  induction ticks with
  | nil => intro acc; simp [runLoop]
  | cons t rest ih =>
    intro acc
    cases hq : t.queryResult with
    | error e => simp [runLoop, hq]
    | ok recs =>
      cases hdec : rowsToTable recs with
      | error msg => simp [runLoop, hq, hdec]
      | ok rows =>
        cases hdraw : t.drawOk with
        | false => simp [runLoop, hq, hdec, hdraw]
        | true =>
          cases hpoll : t.pollResult with
          | error e => simp [runLoop, hq, hdec, hdraw, hpoll]
          | ok pending =>
            cases pending with
            | false => simpa [runLoop, hq, hdec, hdraw, hpoll] using ih _
            | true =>
              cases hread : t.readResult with
              | error e => simp [runLoop, hq, hdec, hdraw, hpoll, hread]
              | ok ev =>
                cases ev with
                | nonKey n =>
                  simpa [runLoop, hq, hdec, hdraw, hpoll, hread] using ih _
                | key k =>
                  cases hk : isQuitKey k with
                  | false =>
                    simpa [runLoop, hq, hdec, hdraw, hpoll, hread, hk] using ih _
                  | true =>
                    cases d <;>
                      simp [runLoop, hq, hdec, hdraw, hpoll, hread, hk,
                        finishQuit]

/-- C5: the exit code is zero exactly when the run returned `Ok(())`, and
that happens exactly when a user quit was observed and the whole quit path
(including the final `disable_raw_mode`) ran without a fatal error; every
fatal initialization or runtime error yields a non-zero exit code. -/
theorem exit_code_zero_iff_quit (mi : MainInput) (ticks : List TickInput) :
    (exitCode (runMain mi ticks).exit = some 0 ↔
      (runMain mi ticks).exit = ExitKind.okExit) ∧
    ((runMain mi ticks).exit = ExitKind.okExit ↔
      ((runMain mi ticks).quitRequested = true ∧ mi.disableRawOk = true)) := by
  constructor
  · cases h : (runMain mi ticks).exit <;> simp [exitCode]
  · cases hurl : mi.databaseUrl with
    | none => simp [runMain, hurl]
    | some url =>
      cases hconn : mi.connectOk with
      | false => simp [runMain, hurl, hconn]
      | true =>
        cases hen : mi.enableRawOk with
        | false => simp [runMain, hurl, hconn, hen]
        | true =>
          cases hterm : mi.terminalNewOk with
          | false => simp [runMain, hurl, hconn, hen, hterm]
          | true =>
            simpa [runMain, hurl, hconn, hen, hterm] using
              runLoop_okExit_iff mi.disableRawOk ticks ⟨0, 0, [TraceStep.enableRaw]⟩

/-- C7: when `DATABASE_URL` is absent the process aborts with the
descriptive `expect` message and a non-zero exit code, before any loop
state exists (no fetch, no render, an empty action trace — in particular
no `enable_raw_mode` call) and with the terminal never placed in raw
mode. -/
theorem missing_database_url_aborts_before_terminal (mi : MainInput)
    (ticks : List TickInput) (h : mi.databaseUrl = none) :
    (runMain mi ticks).exit =
      ExitKind.panicked "DATABASE_URL must be set in environment variables" ∧
    exitCode (runMain mi ticks).exit = some 101 ∧
    exitCode (runMain mi ticks).exit ≠ some 0 ∧
    (runMain mi ticks).rawModeOn = false ∧
    (runMain mi ticks).fetches = 0 ∧
    (runMain mi ticks).renders = 0 ∧
    (runMain mi ticks).trace = [] := by
  simp [runMain, h, exitCode]

/-- C7 witness: the theorem evaluated with the variable unset and every
other startup step notionally available. -/
theorem missing_database_url_aborts_before_terminal_witness :
    (runMain ⟨none, true, true, true, true⟩ []).exit =
      ExitKind.panicked "DATABASE_URL must be set in environment variables" ∧
    exitCode (runMain ⟨none, true, true, true, true⟩ []).exit = some 101 ∧
    exitCode (runMain ⟨none, true, true, true, true⟩ []).exit ≠ some 0 ∧
    (runMain ⟨none, true, true, true, true⟩ []).rawModeOn = false ∧
    (runMain ⟨none, true, true, true, true⟩ []).fetches = 0 ∧
    (runMain ⟨none, true, true, true, true⟩ []).renders = 0 ∧
    (runMain ⟨none, true, true, true, true⟩ []).trace = [] :=
  missing_database_url_aborts_before_terminal ⟨none, true, true, true, true⟩ [] rfl

/-- C9: a completed tick contributes exactly the action sequence fetch,
render, wait the fixed 2-second refresh interval, then one input check
bounded by the fixed 200-millisecond window — each a full barrier before
the next, with the following tick starting only afterwards, and both
timing constants fixed program constants. -/
theorem tick_is_sequential_with_fixed_constants (d : Bool) (acc : LoopAcc)
    (t : TickInput) (rest : List TickInput) (recs : List SourceRecord)
    (table : List (List String))
    (hq : t.queryResult = Except.ok recs)
    (hdec : rowsToTable recs = Except.ok table)
    (hdraw : t.drawOk = true)
    (hpoll : t.pollResult = Except.ok false) :
    runLoop d acc (t :: rest) =
      runLoop d
        ⟨acc.fetches + 1, acc.renders + 1,
          acc.trace ++ [TraceStep.fetchQuery, TraceStep.renderFrame,
            TraceStep.waitInterval refreshIntervalSecs,
            TraceStep.pollInput pollWindowMillis]⟩ rest ∧
    refreshIntervalSecs = 2 ∧ pollWindowMillis = 200 := by
  refine ⟨?_, rfl, rfl⟩
  simp [runLoop, hq, hdec, hdraw, hpoll]

/-- C9 witness: one full no-input tick evaluated concretely. -/
theorem tick_is_sequential_with_fixed_constants_witness :
    runLoop true ⟨0, 0, []⟩ [noEventTick] =
      runLoop true
        ⟨1, 1, [TraceStep.fetchQuery, TraceStep.renderFrame,
          TraceStep.waitInterval refreshIntervalSecs,
          TraceStep.pollInput pollWindowMillis]⟩ [] ∧
    refreshIntervalSecs = 2 ∧ pollWindowMillis = 200 :=
  tick_is_sequential_with_fixed_constants true ⟨0, 0, []⟩ noEventTick []
    [sampleRecordNulls] [["public", "t1", "0", "5", "0", "0", "0", "0", "0"]]
    rfl (by decide) rfl rfl

/-- C10: the quit test reads only the key code — a 'q' key event quits
whatever modifiers accompany it, any key event with a different code does
not quit, and on such a non-quit key the loop simply proceeds to the next
tick with only the tick counters and trace advanced. -/
theorem quit_detection_ignores_modifiers :
    (∀ mods : List KeyModifier, isQuitKey ⟨KeyCode.char 'q', mods⟩ = true) ∧
    (∀ k : KeyEvent, k.code ≠ KeyCode.char 'q' → isQuitKey k = false) ∧
    (∀ (d : Bool) (acc : LoopAcc) (t : TickInput) (rest : List TickInput)
        (recs : List SourceRecord) (table : List (List String)) (k : KeyEvent),
      t.queryResult = Except.ok recs → rowsToTable recs = Except.ok table →
      t.drawOk = true → t.pollResult = Except.ok true →
      t.readResult = Except.ok (TermEvent.key k) →
      ((isQuitKey k = true →
          runLoop d acc (t :: rest) =
            finishQuit d
              ⟨acc.fetches + 1, acc.renders + 1,
                acc.trace ++ [TraceStep.fetchQuery, TraceStep.renderFrame,
                  TraceStep.waitInterval refreshIntervalSecs,
                  TraceStep.pollInput pollWindowMillis]⟩) ∧
        (isQuitKey k = false →
          runLoop d acc (t :: rest) =
            runLoop d
              ⟨acc.fetches + 1, acc.renders + 1,
                acc.trace ++ [TraceStep.fetchQuery, TraceStep.renderFrame,
                  TraceStep.waitInterval refreshIntervalSecs,
                  TraceStep.pollInput pollWindowMillis]⟩ rest))) := by
  refine ⟨?_, ?_, ?_⟩
  · intro mods; rfl
  · intro k hk
    simp [isQuitKey, beq_iff_eq, hk]
  · intro d acc t rest recs table k hq hdec hdraw hpoll hread
    constructor <;> intro hk <;> simp [runLoop, hq, hdec, hdraw, hpoll, hread, hk]

/-- C10 witness: control-q quits, a plain 'x' and a non-character key do
not. -/
theorem quit_detection_ignores_modifiers_witness :
    isQuitKey ⟨KeyCode.char 'q', [KeyModifier.control, KeyModifier.alt]⟩ = true ∧
    isQuitKey ⟨KeyCode.char 'x', []⟩ = false ∧
    isQuitKey ⟨KeyCode.otherKey 0, [KeyModifier.shift]⟩ = false :=
  ⟨quit_detection_ignores_modifiers.1 [KeyModifier.control, KeyModifier.alt],
   quit_detection_ignores_modifiers.2.1 ⟨KeyCode.char 'x', []⟩ (by decide),
   quit_detection_ignores_modifiers.2.1 ⟨KeyCode.otherKey 0, [KeyModifier.shift]⟩
     (by decide)⟩
